import Mathlib

/-!
Verification development for the os-documentation-tools repository
(three pipelines: class-diagram.py, code-explanation.py, use-case.py).

The Python sources are shallowly embedded below: pure functions become Lean
functions over Nat / Rat / String / List Char; the external language-model
client, the tokenizer, the regex engine, the gitignore matcher and the
filesystem are passed in as explicit parameters (oracles); fallible code
returns Option / Except; observable side effects (file reads, network calls,
artifact writes) are collected into explicit event lists.
-/

/-! ## Python string helpers (semantics of the str methods used by the sources) -/

/-- Characters treated as whitespace by Python str.strip with no argument. -/
def pySpace (c : Char) : Bool :=
  c = ' ' || c = '\t' || c = '\n' || c = '\r' || c = '\x0b' || c = '\x0c'

/-- Python str.strip(): remove leading and trailing whitespace. -/
def pyStrip (l : List Char) : List Char :=
  ((l.dropWhile pySpace).reverse.dropWhile pySpace).reverse

/-- Python substring containment, needle in hay. -/
def subOccurs (needle : List Char) : List Char → Bool
  | [] => needle.isEmpty
  | c :: rest => needle.isPrefixOf (c :: rest) || subOccurs needle rest

/-- The blank-line separator used by result.split with separator of two newlines. -/
def nlnl : List Char := ['\n', '\n']

/-- Python s.split on the two-newline separator with maxsplit 1: returns the text
before the first occurrence and the text after it, or none when the separator
does not occur (in the source the 2-element unpacking then raises ValueError). -/
def splitBlank : List Char → Option (List Char × List Char)
  | [] => none
  | c :: rest =>
    if nlnl.isPrefixOf (c :: rest) then some ([], rest.tail)
    else
      match splitBlank rest with
      | some p => some (c :: p.1, p.2)
      | none => none

/-- The literal label removed from the first segment in generate_explanation. -/
def labelChars : List Char := ['C', 'a', 'p', 't', 'i', 'o', 'n', ':', ' ']

/-- Python str.replace of the label by the empty string: removes every
non-overlapping occurrence of the label, left to right. -/
def stripLabel : List Char → List Char
  | 'C' :: 'a' :: 'p' :: 't' :: 'i' :: 'o' :: 'n' :: ':' :: ' ' :: rest => stripLabel rest
  | c :: rest => c :: stripLabel rest
  | [] => []

/-- Python str.endswith. -/
def strEndsWith (s suffix : String) : Bool :=
  suffix.data.reverse.isPrefixOf s.data.reverse

/-- Python str.startswith. -/
def strStartsWith (s pre : String) : Bool :=
  pre.data.isPrefixOf s.data

/-- Python substring containment on String values. -/
def strContains (needle hay : String) : Bool :=
  subOccurs needle.data hay.data

/-- Python os.path.basename on a slash-separated path. -/
def pyBasename (s : String) : String :=
  ((s.splitOn "/").getLast?).getD ""

/-- The stem part of Python os.path.splitext: everything before the last dot
(whole name when the name holds no dot; the sources never pass the leading-dot
names that splitext treats specially). -/
def pyStem (s : String) : String :=
  let r := s.data.reverse
  if r.any (fun c => c = '.') then (((r.dropWhile (fun c => c != '.')).drop 1).reverse).asString
  else s

/-- Python content slicing content up to index 200, used for the preview. -/
def pyTakeStr (n : Nat) (s : String) : String :=
  (s.data.take n).asString

/-- Relative paths are kept as component lists; rendering joins with the path
separator (os.path.join / os.path.relpath). -/
def renderPath (p : List String) : String :=
  String.intercalate "/" p

/-! ## Cost constants and calculate_cost

calculate_cost is defined identically in class-diagram.py (lines 133-137) and
code-explanation.py (lines 224-228), from the module constants at the top of
each file. Machine arithmetic is embedded as exact rationals. -/

def PRICE_PER_1M_INPUT_TOKENS : ℚ := 0.25

def PRICE_PER_1M_OUTPUT_TOKENS : ℚ := 1.25

def calculate_cost (input_tokens output_tokens : ℕ) : ℚ :=
  let input_cost := ((input_tokens : ℚ) / 1000000) * PRICE_PER_1M_INPUT_TOKENS
  let output_cost := ((output_tokens : ℚ) / 1000000) * PRICE_PER_1M_OUTPUT_TOKENS
  input_cost + output_cost

namespace UseCase

/-- Constant from use-case.py line 22. -/
def PRICE_PER_1K_TOKENS : ℚ := 0.002

/-- The estimated cost computed inside save_use_case (use-case.py line 139):
a single combined token count priced per thousand tokens. -/
def estimated_cost (token_usage : ℕ) : ℚ :=
  ((token_usage : ℚ) / 1000) * PRICE_PER_1K_TOKENS

end UseCase

/-! ## Filesystem model and the shared directory walk

Both scanners (read_project_files in class-diagram.py, read_typescript_files in
code-explanation.py) run os.walk top-down over the project directory, prune
version-control / dependency / build directories from the dirs list in place,
skip directories whose relative path holds a tests / seeders / config
component, apply the gitignore matcher to the directory and to each file, and
keep files passing the extension/name allow-list.

A directory tree is modelled in first-child / next-sibling form so that every
function over it is plain structural recursion. The entry chain order is the
os.listdir order that fixes traversal order. -/

inductive FSTree where
  | empty : FSTree
  | fileEntry (name : String) (rest : FSTree) : FSTree
  | dirEntry (name : String) (contents : FSTree) (rest : FSTree) : FSTree

/-- The directory names removed in place from the os.walk dirs list before
descent (class-diagram.py line 49, code-explanation.py line 68). -/
def hardPrunedNames : List String := [".git", "node_modules", "dist", "build"]

/-- The path components that make the walk skip a directory via continue
(class-diagram.py line 53, code-explanation.py line 72). -/
def skipNames : List String := ["tests", "seeders", "config"]

/-- The union of both hard-exclusion mechanisms, as listed by claim C6. -/
def excludedDirNames : List String := hardPrunedNames ++ skipNames

/-- Names of the files directly inside one directory, in entry-chain order. -/
def dirFiles : FSTree → List String
  | .empty => []
  | .fileEntry n rest => n :: dirFiles rest
  | .dirEntry _ _ rest => dirFiles rest

/-- The walked subdirectories strictly below the given tree, in os.walk
top-down order, with the hard-pruned names never descended into. Each element
pairs the relative path components of a directory with its direct file names. -/
def walkSubs : FSTree → List String → List (List String × List String)
  | .empty, _ => []
  | .fileEntry _ rest, rel => walkSubs rest rel
  | .dirEntry n c rest, rel =>
    (if hardPrunedNames.contains n then []
     else (rel ++ [n], dirFiles c) :: walkSubs c (rel ++ [n])) ++ walkSubs rest rel

/-- Full os.walk output for the scan root: the root itself first, then the
pruned descent. -/
def walkDirs (t : FSTree) : List (List String × List String) :=
  ([], dirFiles t) :: walkSubs t []

/-- The candidate files both scanners accept, as (directory components, file
name) pairs in traversal order: the walked directory must have no
tests/seeders/config component and must not match the ignore matcher; the file
name must pass the allow-list and its relative path must not match the ignore
matcher. The matcher abstracts the compiled gitignore spec. -/
def acceptedFiles (allow : String → Bool) (matcher : List String → Bool)
    (t : FSTree) : List (List String × String) :=
  (walkDirs t).flatMap (fun rf =>
    if rf.1.any (fun c => skipNames.contains c) then []
    else if matcher rf.1 then []
    else (rf.2.filter (fun f => allow f && !matcher (rf.1 ++ [f]))).map
      (fun f => (rf.1, f)))

/-- Allow-list of read_project_files (class-diagram.py line 60). -/
def allowCD (f : String) : Bool :=
  strEndsWith f ".ts" || f == "schema.prisma"

/-- Allow-list of read_typescript_files (code-explanation.py line 79). -/
def allowCE (f : String) : Bool :=
  strEndsWith f ".tsx" || strEndsWith f ".ts"

/-! ## Gitignore model

get_gitignore_spec compiles the repository gitignore into a pathspec PathSpec
of GitWildMatchPattern values; pattern syntax and matching live in the external
pathspec library, not in this repository. -/

/-- Modelled from the spec: one compiled pattern of the external pathspec
library, reduced to its include/exclude polarity plus an abstract predicate on
relative paths; the glob syntax itself is outside the repository. -/
structure GitIgnorePattern where
  negated : Bool
  matchesPath : List String → Bool

namespace GitIgnore

/-- Modelled from the spec: pathspec PathSpec.match_file — patterns are
evaluated in file order and the last matching pattern decides, a negated
pattern re-including the path; a path no pattern matches is not ignored. -/
def match_file (spec : List GitIgnorePattern) (p : List String) : Bool :=
  (spec.foldl (fun acc q => if q.matchesPath p then some (!q.negated) else acc)
    none).getD false

end GitIgnore

/-! ## Observable events of one run -/

inductive Ev where
  | fileRead (path : String) : Ev
  | netCall : Ev
  | writeArtifact (path : String) : Ev
deriving DecidableEq

instance {e a : Type} [DecidableEq e] [DecidableEq a] : DecidableEq (Except e a) :=
  fun x y =>
    match x, y with
    | .error u, .error v => if h : u = v then isTrue (by rw [h]) else isFalse (by simp [h])
    | .ok u, .ok v => if h : u = v then isTrue (by rw [h]) else isFalse (by simp [h])
    | .error _, .ok _ => isFalse (by simp)
    | .ok _, .error _ => isFalse (by simp)

/-! ## class-diagram.py -/

namespace ClassDiagram

/-- The environment as seen through os.getenv for this pipeline. -/
structure CDEnv where
  anthropicKey : Option String

/-- System message of the diagram prompt (class-diagram.py line 86). -/
def systemText : String :=
  "You are an expert in software architecture and database modeling. Your task is to analyze TypeScript code and a Prisma schema to generate a class diagram that focuses primarily on relationships between entities."

/-- Human message of the diagram prompt up to the typescript_content slot
(class-diagram.py lines 87-91; the indentation of the Python literal is
elided). -/
def humanPre : String :=
  "\nAnalyze the following TypeScript code and Prisma schema, then generate a class diagram focusing on relationships:\n\nTypeScript Code:\n"

/-- Human message between the two content slots (lines 92-94). -/
def humanMid : String :=
  "\n\nPrisma Schema:\n"

/-- Human message after the prisma_schema slot (lines 96-115). -/
def humanPost : String :=
  "\n\nFollow these strict guidelines:\n" ++
  "1. Identify all entities (classes, interfaces, and models) from both the TypeScript code and Prisma schema.\n" ++
  "2. For each entity, include ONLY the name. DO NOT include attributes or methods unless they are crucial for understanding a relationship.\n" ++
  "3. Focus EXCLUSIVELY on representing relationships between entities:\n" ++
  "   - One-to-One: Use --> with \"1\" on both ends\n" ++
  "   - One-to-Many: Use --> with \"1\" on one end and \"*\" on the other\n" ++
  "   - Many-to-Many: Use --> with \"*\" on both ends\n" ++
  "   - Inheritance: Use <|--\n" ++
  "   - Implementation: Use <|..\n" ++
  "4. Use \"classDiagram\" to start the Mermaid class diagram.\n" ++
  "5. Represent entities with the syntax: class EntityName\n" ++
  "6. Represent relationships with the correct arrows and cardinality, e.g.:\n" ++
  "   EntityA \"1\" --> \"*\" EntityB : has many\n" ++
  "7. Include enum types ONLY if they are directly involved in a relationship. Otherwise, omit them.\n" ++
  "8. Organize the diagram for maximum readability, grouping related entities together.\n" ++
  "9. If there are many entities, focus on the most important ones and their relationships.\n" ++
  "10. DO NOT include any attributes in the diagram unless they are absolutely crucial for understanding a relationship.\n\n" ++
  "Output ONLY the Mermaid code for the diagram, without any additional explanation or markdown formatting. The diagram should ONLY show relationships between entities, not their internal structure.\n"

/-- prompt.format(typescript_content=..., prisma_schema=...): the fully
rendered two-role prompt whose token count generate_diagram measures. -/
def promptRendered (ts pr : String) : String :=
  "System: " ++ systemText ++ "\nHuman: " ++ humanPre ++ ts ++ humanMid ++ pr ++ humanPost

/-- The body of the read loop of read_project_files (class-diagram.py lines
59-73) on the running (typescript_content, prisma_schema, file_list) state:
.ts content is appended with a path header, each schema.prisma read overwrites
the prisma slot, and the path of every accepted file is appended to the file
list. -/
def rpf_step (content : List String → String)
    (st : String × String × List (List String)) (rf : List String × String) :
    String × String × List (List String) :=
  let p := rf.1 ++ [rf.2]
  let c := content p
  (if strEndsWith rf.2 ".ts" then st.1 ++ "\n\n--- " ++ renderPath p ++ " ---\n\n" ++ c
   else st.1,
   if strEndsWith rf.2 ".ts" then st.2.1
   else if rf.2 == "schema.prisma" then c else st.2.1,
   st.2.2 ++ [p])

/-- read_project_files (class-diagram.py lines 41-76): fold the read loop over
the accepted files in traversal order. The content function stands for the
filesystem (reads are modelled as succeeding; a failing read only logs and
skips). -/
def read_project_files (t : FSTree) (content : List String → String)
    (matcher : List String → Bool) : String × String × List (List String) :=
  (acceptedFiles allowCD matcher t).foldl (rpf_step content) ("", "", [])

/-- The file-open events read_project_files performs, one per accepted file. -/
def read_project_files_events (t : FSTree) (matcher : List String → Bool) : List Ev :=
  (acceptedFiles allowCD matcher t).map (fun rf => Ev.fileRead (renderPath (rf.1 ++ [rf.2])))

/-- generate_diagram (class-diagram.py lines 78-131): returns the empty triple
with no network call when ANTHROPIC_API_KEY is absent; otherwise invokes the
chain (one network call) — an exception (oracle none) is caught and yields the
empty triple, a returned completion is paired with the token counts of the
rendered prompt and of the completion. ct stands for llm.get_num_tokens. -/
def generate_diagram (env : CDEnv) (oracle : Option String) (ct : String → Nat)
    (ts pr : String) : (String × Nat × Nat) × List Ev :=
  match env.anthropicKey with
  | none => (("", 0, 0), [])
  | some _ =>
    match oracle with
    | none => (("", 0, 0), [Ev.netCall])
    | some d => ((d, ct (promptRendered ts pr), ct d), [Ev.netCall])

/-- generate_class_diagram (class-diagram.py lines 149-163): scan first, then
return the empty result when nothing was found, otherwise generate and price. -/
def generate_class_diagram (env : CDEnv) (oracle : Option String) (ct : String → Nat)
    (t : FSTree) (content : List String → String) (matcher : List String → Bool) :
    (String × Nat × Nat × ℚ × List (List String)) × List Ev :=
  let r := read_project_files t content matcher
  let readEvs := read_project_files_events t matcher
  if r.1 = "" ∧ r.2.1 = "" then (("", 0, 0, 0, []), readEvs)
  else
    let g := generate_diagram env oracle ct r.1 r.2.1
    ((g.1.1, g.1.2.1, g.1.2.2, calculate_cost g.1.2.1 g.1.2.2, r.2.2), readEvs ++ g.2)

/-- The main block (class-diagram.py lines 183-202): the diagram artifact is
saved only when the generated diagram text is non-empty. -/
def class_diagram_main (env : CDEnv) (oracle : Option String) (ct : String → Nat)
    (t : FSTree) (content : List String → String) (matcher : List String → Bool) :
    (String × Nat × Nat × ℚ × List (List String)) × List Ev :=
  let r := generate_class_diagram env oracle ct t content matcher
  if r.1.1 ≠ "" then (r.1, r.2 ++ [Ev.writeArtifact "combined_class_diagram.md"])
  else r

end ClassDiagram

/-! ## code-explanation.py -/

namespace CodeExplanation

/-- The environment as seen through os.getenv for this pipeline: the file
fetches both keys (code-explanation.py lines 100-101); only the OpenAI one is
consumed (by the ChatOpenAI constructor). -/
structure CEEnv where
  anthropicKey : Option String
  openaiKey : Option String

/-- System message of the explanation prompt (code-explanation.py line 105). -/
def systemText : String :=
  "You are an expert in TypeScript and software development. Your task is to provide a brief explanation of the given TypeScript code and a short caption."

/-- Human message up to the file_name slot (lines 106-111, the indentation of
the Python literal elided). -/
def humanPre : String :=
  "\nAnalyze the following TypeScript code and provide:\n" ++
  "1. A brief explanation (40-60 words) of its purpose and functionality\n" ++
  "2. A short caption (10 words or less) summarizing the code\x27s main function\n\n" ++
  "File Name: "

/-- Human message between the two slots (lines 112-114). -/
def humanMid : String :=
  "\n\nCode Content:\n"

/-- Human message after the file_content slot (lines 116-122). -/
def humanPost : String :=
  "\n\nFormat your response as follows:\n" ++
  "Caption: [Your 10-word or less caption here]\n\n" ++
  "[Your 40-60 word explanation here]\n\n" ++
  "Ensure the explanation is informative yet brief, suitable for a quick overview of the file\x27s contents.\n"

/-- prompt.format(file_name=..., file_content=...). -/
def promptRendered (name content : String) : String :=
  "System: " ++ systemText ++ "\nHuman: " ++ humanPre ++ name ++ humanMid ++ content ++ humanPost

/-- read_typescript_files (code-explanation.py lines 62-91): the accepted
.tsx/.ts files in traversal order as (relative path, content) records. -/
def read_typescript_files (t : FSTree) (content : List String → String)
    (matcher : List String → Bool) : List (String × String) :=
  (acceptedFiles allowCE matcher t).map
    (fun rf => (renderPath (rf.1 ++ [rf.2]), content (rf.1 ++ [rf.2])))

/-- generate_explanation (code-explanation.py lines 99-143). The ChatOpenAI
constructor runs before the try block and raises when no OpenAI key is
available: that exception escapes this function (Except.error). With a key,
the chain is invoked (one network call); inside the try block an invoke
exception (oracle none) or a completion without a blank-line separator (the
2-element unpacking of result.split raises ValueError) is caught and yields
the empty quadruple; otherwise the first segment is label-stripped and trimmed
into the caption, the remainder is the explanation verbatim, and the rendered
prompt and the completion are token-counted. -/
def generate_explanation (env : CEEnv) (ct : String → Nat) (oracle : Option String)
    (name content : String) : Except String (String × String × Nat × Nat) × List Ev :=
  match env.openaiKey with
  | none => (.error "ValidationError: openai_api_key missing", [])
  | some _ =>
    match oracle with
    | none => (.ok ("", "", 0, 0), [Ev.netCall])
    | some raw =>
      match splitBlank raw.data with
      | none => (.ok ("", "", 0, 0), [Ev.netCall])
      | some ab =>
        (.ok ((pyStrip (stripLabel ab.1)).asString, ab.2.asString,
          ct (promptRendered name content), ct raw), [Ev.netCall])

/-- create_code_screenshot (code-explanation.py lines 166-222): the rendering
stack is external; renderOk says whether it succeeds. On success the image is
written under screenshots/ and its relative path returned; any exception is
caught and yields the empty string. -/
def create_code_screenshot (renderOk : Bool) (file_name : String) :
    String × List Ev :=
  if renderOk then
    let out := "screenshots/" ++ pyStem (pyBasename file_name) ++ ".png"
    (out, [Ev.writeArtifact out])
  else ("", [])

/-- generate_explanation_with_screenshot (code-explanation.py lines 230-237):
an exception escaping generate_explanation is caught here and yields the empty
quintuple (no screenshot attempted); otherwise the screenshot is created even
for an empty caption/explanation. -/
def generate_explanation_with_screenshot (env : CEEnv) (ct : String → Nat)
    (oracle : Option String) (renderOk : Bool) (name content : String) :
    (String × String × String × Nat × Nat) × List Ev :=
  match generate_explanation env ct oracle name content with
  | (.error _, evs) => (("", "", "", 0, 0), evs)
  | (.ok r, evs) =>
    let s := create_code_screenshot renderOk name
    ((r.1, r.2.1, s.1, r.2.2.1, r.2.2.2), evs ++ s.2)

/-- One iteration of the per-file loop of generate_code_explanations
(code-explanation.py lines 332-340) on the running
(explanations, total_input_tokens, total_output_tokens) state: the unit is
appended to the explanations and its token counts added to the totals only
when its explanation is non-empty. -/
def explain_step (env : CEEnv) (ct : String → Nat)
    (oracle : String → String → Option String) (renderOk : String → Bool)
    (st : List (String × String × String × String) × Nat × Nat)
    (fc : String × String) :
    List (String × String × String × String) × Nat × Nat :=
  let r := (generate_explanation_with_screenshot env ct (oracle fc.1 fc.2)
    (renderOk fc.1) fc.1 fc.2).1
  if r.2.1 ≠ "" then
    (st.1 ++ [(fc.1, r.1, r.2.1, r.2.2.1)], st.2.1 + r.2.2.2.1, st.2.2 + r.2.2.2.2)
  else st

/-- The per-file loop of generate_code_explanations: the fold of explain_step
over the scanned files, paired with the concatenation of the events of each unit in
order. -/
def explain_files_loop (env : CEEnv) (ct : String → Nat)
    (oracle : String → String → Option String) (renderOk : String → Bool)
    (files : List (String × String)) :
    (List (String × String × String × String) × Nat × Nat) × List Ev :=
  (files.foldl (explain_step env ct oracle renderOk) ([], 0, 0),
   files.flatMap (fun fc =>
     (generate_explanation_with_screenshot env ct (oracle fc.1 fc.2)
       (renderOk fc.1) fc.1 fc.2).2))

/-- create_word_document (code-explanation.py lines 267-323): document
assembly and saving are external docx operations wrapped in one try block;
saveOk says whether they succeed. It is called with whatever explanations the
loop produced — also when that list is empty — and on success saves
code_explanations.docx and returns its path; an exception is caught and yields
None. -/
def create_word_document (expls : List (String × String × String × String))
    (saveOk : Bool) : Option String × List Ev :=
  if saveOk then
    (some "output/code_explanations.docx", [Ev.writeArtifact "code_explanations.docx"])
  else (none, [])

/-- generate_code_explanations (code-explanation.py lines 325-350): scan, loop
over the files, price the surviving totals, then build the Word document. -/
def generate_code_explanations (env : CEEnv) (ct : String → Nat)
    (oracle : String → String → Option String) (renderOk : String → Bool)
    (saveOk : Bool) (t : FSTree) (content : List String → String)
    (matcher : List String → Bool) :
    (List (String × String × String × String) × Nat × Nat × ℚ × Option String) × List Ev :=
  let files := read_typescript_files t content matcher
  let readEvs := files.map (fun fc => Ev.fileRead fc.1)
  let lr := explain_files_loop env ct oracle renderOk files
  let doc := create_word_document lr.1.1 saveOk
  ((lr.1.1, lr.1.2.1, lr.1.2.2, calculate_cost lr.1.2.1 lr.1.2.2, doc.1),
   readEvs ++ lr.2 ++ doc.2)

end CodeExplanation

/-! ## use-case.py -/

namespace UseCase

/-- Regular expression for controller methods (use-case.py line 28); the regex
engine is the external re module, abstracted by the findall parameter below. -/
def CONTROLLER_METHOD_REGEX : String := "async\\s+(\\w+)\\s*\\([^)]*\\)\\s*\x7b"

/-- Regular expression for prisma models (use-case.py line 29). -/
def PRISMA_MODEL_REGEX : String := "model\\s+(\\w+)\\s*\x7b"

/-- The use-case prompt template before the analysis slot (use-case.py lines
32-35). -/
def templatePre : String :=
  "\nBased on the following analysis of a controller component, generate detailed use case specifications for the operations identified:\n\n"

/-- The use-case prompt template after the analysis slot (lines 37-77). -/
def templatePost : String :=
  "\n\nFor each operation identified in the analysis, create a comprehensive use case specification using the following structure:\n\n" ++
  "# Use Case Specifications\n\n" ++
  "## [Operation Name]\n" ++
  "| Section | Description |\n" ++
  "|---------|-------------|\n" ++
  "| Use Case Name | [Clear, action-oriented name for the operation] |\n" ++
  "| Description | [Brief description of the operation, its purpose, and context] |\n" ++
  "| Actors | Primary Actor: End User<br>Secondary Actor(s): System |\n" ++
  "| Preconditions | [Conditions that must be true before the operation can be performed] |\n" ++
  "| Postconditions | [System state after the operation has been successfully completed] |\n" ++
  "| Standard Process | [Numbered steps describing the main success scenario] |\n" ++
  "| Alternative Processes | [Alternative paths, numbered as subsets of the main process steps, e.g., 2a for an alternative to step 2] |\n" ++
  "| Exception Processes | [Error handling processes such as validation errors, numbered as subsets of the main process steps, e.g., 3a for an exception in step 3] |\n\n" ++
  "Important guidelines:\n" ++
  "1. Always set the primary actor as \"End User\" and the secondary actor as \"System\" for all operations.\n" ++
  "2. For CRUD operations (create, getById, update, delete), follow common patterns but adapt to the specific implementation in the controller.\n" ++
  "3. Pay special attention to operations like search, getPaginated, and getFeatured, which may have unique parameters and behaviors.\n" ++
  "4. Consider authentication and authorization requirements, especially for operations that check for a logged-in user.\n" ++
  "5. Include details about input validation, especially when Zod schemas are used for request body parsing.\n" ++
  "6. For operations that interact with services (e.g., RepoService, CodeCheckService), describe the general purpose without diving into implementation details.\n" ++
  "7. When describing processes involving database operations, use generic terms like \"database\" instead of specific technologies.\n" ++
  "8. For search operations, detail the various search criteria and how they affect the results.\n" ++
  "9. For operations returning paginated results, include information about pagination in the process and postconditions.\n" ++
  "10. Write all components considering the interaction between the end user and the system, focusing on what the user does and how the system responds.\n" ++
  "11. If there are similar operations across multiple controllers (e.g GetAll and GetById), combine them into a single use case specification with clear distinctions between the controllers.\n\n" ++
  "Common considerations for different types of operations:\n" ++
  "- CRUD Operations:\n" ++
  "  - Create: Data validation, handling of user-provided data, status setting (e.g., \x27pending\x27)\n" ++
  "  - Read: Retrieving associated data (e.g., CodeCheck results), handling public vs. private access\n" ++
  "  - Update: Partial updates, handling of sensitive fields, potential code checking processes\n" ++
  "  - Delete: Ensuring user authorization, handling of associated data\n" ++
  "- Search Operations: Handling of multiple search criteria, pagination, potential security considerations for visibility\n" ++
  "- List Operations (e.g., getPaginated, getByUser): Pagination, filtering, handling of user-specific data\n" ++
  "- Featured Content: Criteria for featuring, limit handling\n\n" ++
  "Remember to adapt the content of each operation based on the provided analysis, considering the controller methods and their specific implementations, while maintaining the end user as the primary actor initiating the actions. Generate a separate use case specification for each distinct operation identified in the analysis.\n"

/-- USE_CASE_TEMPLATE.format(analysis=...). -/
def templateFormat (analysis : String) : String :=
  templatePre ++ analysis ++ templatePost

/-- initialize_llm (use-case.py lines 79-90): raises ValueError when the
ANTHROPIC_API_KEY environment variable is not set, before anything else in
main runs. -/
def initialize_llm (key : Option String) : Except String Unit :=
  match key with
  | none => .error "ANTHROPIC_API_KEY environment variable is not set"
  | some _ => .ok ()

/-- analyze_file (use-case.py lines 92-112): the open/read at the top carries
no try block, so a read failure (readResult error) propagates out; with the
content in hand, controller files get their async method names extracted and
classified, schema.prisma gets its model names listed, and any other file
yields a 200-character preview. findall abstracts re.findall. -/
def analyze_file (readResult : Except String String) (file_path : String)
    (findall : String → String → List String) : Except String String :=
  match readResult with
  | .error e => .error e
  | .ok content =>
    let file_name := pyBasename file_path
    if strContains "Controller" file_name then
      let methods := findall CONTROLLER_METHOD_REGEX content
      let operations := methods.map (fun m =>
        if strStartsWith m "create" || strStartsWith m "get" ||
           strStartsWith m "update" || strStartsWith m "delete" then
          "CRUD Operation: " ++ m
        else "Specific Operation: " ++ m)
      .ok ("Controller: " ++ file_name ++ "\nOperations: " ++
        String.intercalate ", " operations)
    else if file_name == "schema.prisma" then
      .ok ("Prisma Schema Models: " ++
        String.intercalate ", " (findall PRISMA_MODEL_REGEX content))
    else
      .ok ("Unknown file type: " ++ file_name ++ "\nContent preview: " ++
        pyTakeStr 200 content ++ "...")

/-- generate_use_case (use-case.py lines 114-130): invokes the chain (one
network call) with no try block, so an invoke exception (oracle error)
propagates out; on success the combined token count of the rendered template
plus the result is measured. ct stands for llm.get_num_tokens. -/
def generate_use_case (oracle : Except String String) (ct : String → Nat)
    (analysis : String) : Except String (String × Nat) × List Ev :=
  match oracle with
  | .error e => (.error e, [Ev.netCall])
  | .ok result => (.ok (result, ct (templateFormat analysis ++ result)), [Ev.netCall])

/-- save_use_case (use-case.py lines 132-160): writes the markdown artifact
with the cost footer computed by estimated_cost. -/
def save_use_case (file_path : String) (token_usage : ℕ) : String × ℚ × List Ev :=
  let use_case_file_name := "use_case_" ++ pyStem (pyBasename file_path) ++ ".md"
  ("output/" ++ use_case_file_name, estimated_cost token_usage,
   [Ev.writeArtifact use_case_file_name])

/-- main (use-case.py lines 162-176): initialize_llm runs before the file is
touched; afterwards analyze, generate and save run in sequence with no
exception handling anywhere on the path. -/
def use_case_main (key : Option String) (file_path : String)
    (readResult : Except String String) (findall : String → String → List String)
    (oracle : Except String String) (ct : String → Nat) :
    Except String (String × Nat) × List Ev :=
  match initialize_llm key with
  | .error e => (.error e, [])
  | .ok _ =>
    match analyze_file readResult file_path findall with
    | .error e => (.error e, [Ev.fileRead file_path])
    | .ok analysis =>
      let g := generate_use_case oracle ct analysis
      match g.1 with
      | .error e => (.error e, [Ev.fileRead file_path] ++ g.2)
      | .ok r =>
        let s := save_use_case file_path r.2
        (.ok r, [Ev.fileRead file_path] ++ g.2 ++ s.2.2)

end UseCase

/-! ## Helper lemmas about the split/strip machinery -/

theorem subOccurs_cons_ne (c : Char) (l : List Char) (h : c ≠ '\n') :
    subOccurs nlnl (c :: l) = subOccurs nlnl l := by
  have hb : (('\n' : Char) == c) = false := by
    simp only [beq_eq_false_iff_ne, ne_eq]
    exact fun hh => h hh.symm
  simp [subOccurs, nlnl, List.isPrefixOf, hb]

theorem subOccurs_label_append (X : List Char) :
    subOccurs nlnl (labelChars ++ X) = subOccurs nlnl X := by
  show subOccurs nlnl
    ('C' :: 'a' :: 'p' :: 't' :: 'i' :: 'o' :: 'n' :: ':' :: ' ' :: X) = subOccurs nlnl X
  rw [subOccurs_cons_ne _ _ (by decide), subOccurs_cons_ne _ _ (by decide),
    subOccurs_cons_ne _ _ (by decide), subOccurs_cons_ne _ _ (by decide),
    subOccurs_cons_ne _ _ (by decide), subOccurs_cons_ne _ _ (by decide),
    subOccurs_cons_ne _ _ (by decide), subOccurs_cons_ne _ _ (by decide),
    subOccurs_cons_ne _ _ (by decide)]

theorem splitBlank_append (A B : List Char) (hA : subOccurs nlnl A = false)
    (hl : A.getLast? ≠ some '\n') :
    splitBlank (A ++ '\n' :: '\n' :: B) = some (A, B) := by
  induction A with
  | nil => simp [splitBlank, nlnl, List.isPrefixOf]
  | cons c A ih =>
    have hsub : subOccurs nlnl A = false := by
      have h2 := hA
      simp only [subOccurs, Bool.or_eq_false_iff] at h2
      exact h2.2
    have hpre : nlnl.isPrefixOf (c :: (A ++ '\n' :: '\n' :: B)) = false := by
      match A with
      | [] =>
        have hc : c ≠ '\n' := by simpa using hl
        have hb : (('\n' : Char) == c) = false := by
          simp only [beq_eq_false_iff_ne, ne_eq]
          exact fun hh => hc hh.symm
        simp [nlnl, List.isPrefixOf, hb]
      | a :: A2 =>
        have h3 := hA
        simp only [subOccurs, Bool.or_eq_false_iff] at h3
        have h4 : nlnl.isPrefixOf (c :: a :: A2) = false := h3.1
        simp only [nlnl, List.isPrefixOf] at h4 ⊢
        simpa using h4
    have hl2 : A.getLast? ≠ some '\n' := by
      match A with
      | [] => simp
      | a :: A2 =>
        rw [List.getLast?_cons_cons] at hl
        exact hl
    rw [List.cons_append, splitBlank.eq_def]
    simp only [hpre, Bool.false_eq_true, if_false]
    rw [ih hsub hl2]

theorem splitBlank_eq_none (raw : List Char) (h : subOccurs nlnl raw = false) :
    splitBlank raw = none := by
  induction raw with
  | nil => rfl
  | cons c rest ih =>
    have h2 := h
    simp only [subOccurs, Bool.or_eq_false_iff] at h2
    rw [splitBlank.eq_def]
    simp only [h2.1, Bool.false_eq_true, if_false, ih h2.2]

theorem stripLabel_label_append (l : List Char) :
    stripLabel (labelChars ++ l) = stripLabel l := rfl

theorem asString_data (l : List Char) : (l.asString).data = l := rfl

/-! ## Claim C1 -/

/-- C1 counterexample: the claim quantifies over every run, including the
use-case pipeline (its source list names save_use_case), but that pipeline
prices a single combined token count at 0.002 per thousand tokens: a run with
input/output counts 12000/3000 (combined 15000) costs 0.03 there, not the
0.00675 the claim demands, while the shared calculate_cost of the other two
pipelines does give 0.00675. -/
theorem c1_counterexample :
    UseCase.estimated_cost (12000 + 3000) = 0.03 ∧
    (0.03 : ℚ) ≠ 0.00675 ∧
    calculate_cost 12000 3000 = 0.00675 := by
  refine ⟨?_, by norm_num, ?_⟩ <;>
    simp [UseCase.estimated_cost, UseCase.PRICE_PER_1K_TOKENS, calculate_cost,
      PRICE_PER_1M_INPUT_TOKENS, PRICE_PER_1M_OUTPUT_TOKENS] <;> norm_num

/-- C1 (amended): in the class-diagram and code-explanation pipelines the total
cost is input_tokens/1e6 * 0.25 + output_tokens/1e6 * 1.25, and counts
12000/3000 yield exactly 0.00675; the use-case pipeline instead prices the
single combined count at 0.002 per thousand tokens, which disagrees with the
per-rate formula on every run with a nonzero token count. -/
theorem c1_cost_amended :
    calculate_cost 12000 3000 = 0.00675 ∧
    (∀ i o : ℕ, calculate_cost i o =
      (i : ℚ) / 1000000 * 0.25 + (o : ℚ) / 1000000 * 1.25) ∧
    (∀ i o : ℕ, 0 < i + o → UseCase.estimated_cost (i + o) ≠ calculate_cost i o) := by
  refine ⟨?_, fun i o => rfl, fun i o h hq => ?_⟩
  · simp [calculate_cost, PRICE_PER_1M_INPUT_TOKENS, PRICE_PER_1M_OUTPUT_TOKENS]
    norm_num
  · have hx : (0 : ℚ) ≤ (i : ℚ) := by positivity
    have hy : (0 : ℚ) ≤ (o : ℚ) := by positivity
    have hpos : (0 : ℚ) < (i : ℚ) + (o : ℚ) := by exact_mod_cast h
    simp only [UseCase.estimated_cost, UseCase.PRICE_PER_1K_TOKENS, calculate_cost,
      PRICE_PER_1M_INPUT_TOKENS, PRICE_PER_1M_OUTPUT_TOKENS, Nat.cast_add] at hq
    have h73 : 7 * (i : ℚ) + 3 * (o : ℚ) = 0 := by field_simp at hq; linarith
    linarith

/-- C1 witness: the amended divergence conjunct applied at counts 12000/3000. -/
theorem c1_cost_witness :
    UseCase.estimated_cost (12000 + 3000) ≠ calculate_cost 12000 3000 :=
  c1_cost_amended.2.2 12000 3000 (by norm_num)

/-! ## Claim C9 -/

/-- C9: calculate_cost is monotonically non-decreasing in each token-count
argument, never negative, and exactly zero on zero counts. -/
theorem c9_cost_monotone :
    (∀ i i' o : ℕ, i ≤ i' → calculate_cost i o ≤ calculate_cost i' o) ∧
    (∀ i o o' : ℕ, o ≤ o' → calculate_cost i o ≤ calculate_cost i o') ∧
    (∀ i o : ℕ, 0 ≤ calculate_cost i o) ∧
    calculate_cost 0 0 = 0 := by
  have key : ∀ i o : ℕ, calculate_cost i o =
      (i : ℚ) * (1 / 4000000) + (o : ℚ) * (5 / 4000000) := by
    intro i o
    simp [calculate_cost, PRICE_PER_1M_INPUT_TOKENS, PRICE_PER_1M_OUTPUT_TOKENS]
    ring
  refine ⟨fun i i' o h => ?_, fun i o o' h => ?_, fun i o => ?_, ?_⟩
  · rw [key, key]
    have : (i : ℚ) ≤ (i' : ℚ) := by exact_mod_cast h
    nlinarith
  · rw [key, key]
    have : (o : ℚ) ≤ (o' : ℚ) := by exact_mod_cast h
    nlinarith
  · rw [key]; positivity
  · rw [key]; norm_num

/-- C9 witness: monotonicity, non-negativity and the zero case at concrete
counts 100 ≤ 200 input tokens and 30 ≤ 40 output tokens. -/
theorem c9_cost_monotone_witness :
    calculate_cost 100 30 ≤ calculate_cost 200 30 ∧
    calculate_cost 100 30 ≤ calculate_cost 100 40 ∧
    0 ≤ calculate_cost 100 30 ∧
    calculate_cost 0 0 = 0 :=
  ⟨c9_cost_monotone.1 100 200 30 (by norm_num),
   c9_cost_monotone.2.1 100 30 40 (by norm_num),
   c9_cost_monotone.2.2.1 100 30,
   c9_cost_monotone.2.2.2⟩

/-! ## Claim C2 -/

/-- C2 counterexample: the parser does not return the caption exactly — the
first segment has every occurrence of the label removed (Python str.replace),
not just a leading label. For the response of the form Caption: X with a blank
line and then Y, taking X as the text a Caption: b and Y as the text Y, the
parser returns the caption a b instead of X. -/
theorem c2_parse_counterexample :
    CodeExplanation.generate_explanation ⟨some "ak", some "ok"⟩ (fun _ => 7)
      (some "Caption: a Caption: b\n\nY") "n" "c"
      = (.ok ("a b", "Y", 7, 7), [Ev.netCall]) ∧
    "a b" ≠ "a Caption: b" := by
  exact ⟨by decide, by decide⟩

/-- C2 (amended): for a raw response Caption: X, blank line, Y — where X holds
no blank line and does not end in a newline — the parser yields explanation
exactly Y and as caption X with every occurrence of the label token removed
and surrounding whitespace stripped; in particular the caption is exactly X
whenever X is untouched by that removal and stripping. A response holding no
blank-line separator yields the parse-failure value (empty caption, empty
explanation, zero token counts) rather than an uncaught exception. -/
theorem c2_parser_amended (ak k name content : String) (ct : String → Nat)
    (X Y : List Char) (hX : subOccurs nlnl X = false)
    (hlast : X.getLast? ≠ some '\n') :
    (CodeExplanation.generate_explanation ⟨some ak, some k⟩ ct
        (some (labelChars ++ X ++ '\n' :: '\n' :: Y).asString) name content
      = (.ok ((pyStrip (stripLabel X)).asString, Y.asString,
          ct (CodeExplanation.promptRendered name content),
          ct (labelChars ++ X ++ '\n' :: '\n' :: Y).asString), [Ev.netCall])) ∧
    (stripLabel X = X → pyStrip X = X →
      CodeExplanation.generate_explanation ⟨some ak, some k⟩ ct
        (some (labelChars ++ X ++ '\n' :: '\n' :: Y).asString) name content
      = (.ok (X.asString, Y.asString,
          ct (CodeExplanation.promptRendered name content),
          ct (labelChars ++ X ++ '\n' :: '\n' :: Y).asString), [Ev.netCall])) ∧
    (∀ raw : String, subOccurs nlnl raw.data = false →
      CodeExplanation.generate_explanation ⟨some ak, some k⟩ ct (some raw) name content
      = (.ok ("", "", 0, 0), [Ev.netCall])) := by
  have hsplit : splitBlank ((labelChars ++ X ++ '\n' :: '\n' :: Y).asString).data
      = some (labelChars ++ X, Y) := by
    rw [asString_data]
    apply splitBlank_append
    · rw [subOccurs_label_append]
      exact hX
    · match X with
      | [] => decide
      | x :: X2 =>
        rw [List.getLast?_append_of_ne_nil labelChars (by simp)]
        exact hlast
  have hmain : CodeExplanation.generate_explanation ⟨some ak, some k⟩ ct
      (some (labelChars ++ X ++ '\n' :: '\n' :: Y).asString) name content
      = (.ok ((pyStrip (stripLabel X)).asString, Y.asString,
        ct (CodeExplanation.promptRendered name content),
        ct (labelChars ++ X ++ '\n' :: '\n' :: Y).asString), [Ev.netCall]) := by
    simp only [CodeExplanation.generate_explanation, hsplit, stripLabel_label_append]
  refine ⟨hmain, fun h1 h2 => ?_, fun raw hraw => ?_⟩
  · rw [hmain, h1, h2]
  · simp only [CodeExplanation.generate_explanation, splitBlank_eq_none raw.data hraw]

/-- C2 witness: the amended round-trip applied at the caption hi and the
explanation world, and the failure branch applied at a separator-free
response. -/
theorem c2_parser_witness :
    (subOccurs nlnl "hi".data = false ∧ "hi".data.getLast? ≠ some '\n' ∧
      CodeExplanation.generate_explanation ⟨some "a", some "k"⟩ String.length
        (some (labelChars ++ "hi".data ++ '\n' :: '\n' :: "world".data).asString) "n" "c"
      = (.ok ((pyStrip (stripLabel "hi".data)).asString, "world".data.asString,
          (CodeExplanation.promptRendered "n" "c").length,
          ((labelChars ++ "hi".data ++ '\n' :: '\n' :: "world".data).asString).length),
        [Ev.netCall])) ∧
    (subOccurs nlnl "no separator here".data = false ∧
      CodeExplanation.generate_explanation ⟨some "a", some "k"⟩ String.length
        (some "no separator here") "n" "c" = (.ok ("", "", 0, 0), [Ev.netCall])) :=
  ⟨⟨by decide, by decide,
    (c2_parser_amended "a" "k" "n" "c" String.length "hi".data "world".data
      (by decide) (by decide)).1⟩,
   ⟨by decide,
    (c2_parser_amended "a" "k" "n" "c" String.length "hi".data "world".data
      (by decide) (by decide)).2.2 "no separator here" (by decide)⟩⟩

/-! ## Helper lemmas about the walk and the accepted-file set -/

theorem contains_true_iff (l : List String) (c : String) :
    l.contains c = true ↔ c ∈ l := by
  simp [List.contains_iff_exists_mem_beq]

theorem contains_false_iff (l : List String) (c : String) :
    l.contains c = false ↔ c ∉ l := by
  rw [← contains_true_iff]
  cases h : l.contains c <;> simp

theorem walkSubs_mem (t : FSTree) (rel0 rel : List String) (fs : List String)
    (h : (rel, fs) ∈ walkSubs t rel0) :
    ∃ suf, rel = rel0 ++ suf ∧ suf ≠ [] ∧
      ∀ c ∈ suf, hardPrunedNames.contains c = false := by
  induction t generalizing rel0 with
  | empty => simp [walkSubs] at h
  | fileEntry n rest ih =>
    rw [walkSubs] at h
    exact ih rel0 h
  | dirEntry n c rest ihc ihr =>
    rw [walkSubs] at h
    rcases List.mem_append.mp h with h1 | h2
    · split at h1
      · exact absurd h1 (List.not_mem_nil _)
      · next hn =>
        have hn' : hardPrunedNames.contains n = false := by
          rwa [Bool.not_eq_true] at hn
        rcases List.mem_cons.mp h1 with h0 | hm
        · have he : rel = rel0 ++ [n] := congrArg Prod.fst h0
          refine ⟨[n], he, by simp, ?_⟩
          intro x hx
          rcases List.mem_singleton.mp hx with rfl
          exact hn'
        · rcases ihc (rel0 ++ [n]) hm with ⟨suf, hs1, _, hs3⟩
          refine ⟨n :: suf, by rw [hs1]; simp, by simp, ?_⟩
          intro x hx
          rcases List.mem_cons.mp hx with rfl | hx2
          · exact hn'
          · exact hs3 x hx2
    · exact ihr rel0 h2

theorem acceptedFiles_mem_facts (allow : String → Bool) (matcher : List String → Bool)
    (t : FSTree) (rel : List String) (f : String)
    (h : (rel, f) ∈ acceptedFiles allow matcher t) :
    rel.any (fun c => skipNames.contains c) = false ∧
    matcher rel = false ∧
    allow f = true ∧
    matcher (rel ++ [f]) = false ∧
    ∃ fs, (rel, fs) ∈ walkDirs t ∧ f ∈ fs := by
  rw [acceptedFiles] at h
  rcases List.mem_flatMap.mp h with ⟨rf, hrf, hmem⟩
  split at hmem
  · exact absurd hmem (List.not_mem_nil _)
  · next hskip =>
    have hskip' : rf.1.any (fun c => skipNames.contains c) = false := by
      rwa [Bool.not_eq_true] at hskip
    split at hmem
    · exact absurd hmem (List.not_mem_nil _)
    · next hm =>
      have hm' : matcher rf.1 = false := by
        rwa [Bool.not_eq_true] at hm
      rcases List.mem_map.mp hmem with ⟨f2, hf2, heq⟩
      have hrel : rf.1 = rel := congrArg Prod.fst heq
      have hf : f2 = f := congrArg Prod.snd heq
      rcases List.mem_filter.mp hf2 with ⟨hin, hcond⟩
      rw [Bool.and_eq_true] at hcond
      rcases hcond with ⟨hallow, hnot⟩
      have hmf : matcher (rf.1 ++ [f2]) = false := by
        cases hx : matcher (rf.1 ++ [f2])
        · rfl
        · rw [hx] at hnot
          simp at hnot
      rw [← hrel, ← hf]
      exact ⟨hskip', hm', hallow, hmf, ⟨rf.2, by simpa [← hrel] using hrf, hin⟩⟩

/-! ## Claim C6 -/

/-- C6: directory pruning is exact — every file the scanner reads lies in a
directory none of whose path components is one of the hard-excluded names
.git, node_modules, dist, build, tests, seeders, config, whatever the
allow-list and the ignore matcher are. -/
theorem c6_pruning_exact (allow : String → Bool) (matcher : List String → Bool)
    (t : FSTree) (rel : List String) (f : String)
    (h : (rel, f) ∈ acceptedFiles allow matcher t) :
    ∀ c ∈ rel, c ∉ excludedDirNames := by
  obtain ⟨hskip, _, _, _, fs, hw, _⟩ := acceptedFiles_mem_facts allow matcher t rel f h
  intro c hc
  rw [excludedDirNames, List.mem_append]
  rintro (hhard | hskipmem)
  · rcases List.mem_cons.mp hw with h0 | hsubs
    · have hnil : rel = [] := congrArg Prod.fst h0
      rw [hnil] at hc
      simp at hc
    · rcases walkSubs_mem t [] rel fs hsubs with ⟨suf, h1, _, h3⟩
      have hc' : c ∈ suf := by
        rw [h1] at hc
        simpa using hc
      have ht := (contains_true_iff hardPrunedNames c).mpr hhard
      rw [h3 c hc'] at ht
      exact Bool.false_ne_true ht
  · rw [List.any_eq_false] at hskip
    have hf := hskip c hc
    have ht := (contains_true_iff skipNames c).mpr hskipmem
    rw [ht] at hf
    simp at hf

/-- C6 witness: a tree with a source subdirectory and an excluded tests
subdirectory; the accepted file src/a.ts lies under no excluded name. -/
theorem c6_pruning_witness :
    ((["src"], "a.ts") ∈ acceptedFiles allowCD (fun _ => false)
      (FSTree.dirEntry "src" (.fileEntry "a.ts" .empty)
        (.dirEntry "tests" (.fileEntry "b.ts" .empty) .empty))) ∧
    ∀ c ∈ ["src"], c ∉ excludedDirNames :=
  ⟨by decide,
   c6_pruning_exact allowCD (fun _ => false)
     (FSTree.dirEntry "src" (.fileEntry "a.ts" .empty)
       (.dirEntry "tests" (.fileEntry "b.ts" .empty) .empty))
     ["src"] "a.ts" (by decide)⟩

/-! ## Claim C7 -/

theorem matchFoldl_some_true (p : List String) (l2 : List GitIgnorePattern)
    (h : ∀ r ∈ l2, r.matchesPath p = true → r.negated = false) :
    l2.foldl (fun acc q => if q.matchesPath p then some (!q.negated) else acc)
      (some true) = some true := by
  induction l2 with
  | nil => rfl
  | cons r rest ih =>
    by_cases hr : r.matchesPath p = true
    · have hneg := h r (List.mem_cons_self r rest) hr
      rw [List.foldl_cons, if_pos hr, hneg]
      exact ih (fun x hx hxx => h x (List.mem_cons_of_mem r hx) hxx)
    · rw [List.foldl_cons, if_neg hr]
      exact ih (fun x hx hxx => h x (List.mem_cons_of_mem r hx) hxx)

/-- C7: in the modelled pathspec semantics, a path matched by a non-negated
(exclude) pattern that no later matching pattern negates is ignored
(match_file true), and such a path is never among the files the scanner
accepts — pattern order deciding, since the fold keeps the polarity of the
last matching pattern. -/
theorem c7_ignore_order (pre post : List GitIgnorePattern) (q : GitIgnorePattern)
    (p : List String) (hq : q.matchesPath p = true) (hneg : q.negated = false)
    (hpost : ∀ r ∈ post, r.matchesPath p = true → r.negated = false)
    (allow : String → Bool) (t : FSTree) :
    GitIgnore.match_file (pre ++ q :: post) p = true ∧
    ∀ rel f, rel ++ [f] = p →
      (rel, f) ∉ acceptedFiles allow (GitIgnore.match_file (pre ++ q :: post)) t := by
  have hmf : GitIgnore.match_file (pre ++ q :: post) p = true := by
    rw [GitIgnore.match_file, List.foldl_append, List.foldl_cons, if_pos hq, hneg]
    simp only [Bool.not_false]
    rw [matchFoldl_some_true p post hpost]
    rfl
  refine ⟨hmf, fun rel f hrf hmem => ?_⟩
  have hfalse := (acceptedFiles_mem_facts _ _ _ _ _ hmem).2.2.2.1
  rw [hrf, hmf] at hfalse
  exact Bool.noConfusion hfalse

/-- C7 witness: a one-pattern spec excluding the path x.ts; the matched file
is ignored and a tree containing exactly that file yields no accepted file. -/
theorem c7_ignore_order_witness :
    GitIgnore.match_file [⟨false, fun path => path == ["x.ts"]⟩] ["x.ts"] = true ∧
    ∀ rel f, rel ++ [f] = ["x.ts"] →
      (rel, f) ∉ acceptedFiles allowCD
        (GitIgnore.match_file [⟨false, fun path => path == ["x.ts"]⟩])
        (FSTree.fileEntry "x.ts" .empty) := by
  have h := c7_ignore_order [] [] ⟨false, fun path => path == ["x.ts"]⟩ ["x.ts"]
    (by decide) rfl (by intro r hr; exact absurd hr (List.not_mem_nil r)) allowCD
    (FSTree.fileEntry "x.ts" .empty)
  exact h

/-! ## Claim C10 -/

theorem getLast?_map_getD {α β : Type} (a : α) (L : List α) (g : α → β) (d : β) :
    (((a :: L).getLast?).map g).getD d = ((L.getLast?).map g).getD (g a) := by
  cases hL : L.getLast? <;> simp [List.getLast?_cons, hL]

theorem rpf_foldl_eq (content : List String → String) (l : List (List String × String))
    (ts0 pr0 : String) (fl0 : List (List String)) :
    l.foldl (ClassDiagram.rpf_step content) (ts0, pr0, fl0) =
      ((l.filter (fun rf => strEndsWith rf.2 ".ts")).foldl
          (fun s rf => s ++ "\n\n--- " ++ renderPath (rf.1 ++ [rf.2]) ++ " ---\n\n" ++
            content (rf.1 ++ [rf.2])) ts0,
       (((l.filter (fun rf => !strEndsWith rf.2 ".ts" && rf.2 == "schema.prisma")).getLast?).map
           (fun rf => content (rf.1 ++ [rf.2]))).getD pr0,
       fl0 ++ l.map (fun rf => rf.1 ++ [rf.2])) := by
  induction l generalizing ts0 pr0 fl0 with
  | nil => simp
  | cons rf rest ih =>
    rw [List.foldl_cons, ih]
    by_cases hts : strEndsWith rf.2 ".ts" = true
    · simp only [ClassDiagram.rpf_step, hts, if_true, List.filter_cons, Bool.not_true,
        Bool.false_and, List.foldl_cons, List.map_cons]
      simp [List.append_assoc]
    · have hts' : strEndsWith rf.2 ".ts" = false := by
        cases hx : strEndsWith rf.2 ".ts"
        · rfl
        · exact absurd hx hts
      by_cases hpr : (rf.2 == "schema.prisma") = true
      · simp only [ClassDiagram.rpf_step, hts', Bool.false_eq_true, if_false, hpr, if_true,
          List.filter_cons, Bool.not_false, Bool.true_and, List.map_cons]
        rw [getLast?_map_getD]
        simp [List.append_assoc]
      · have hpr' : (rf.2 == "schema.prisma") = false := by
          cases hx : (rf.2 == "schema.prisma")
          · rfl
          · exact absurd hx hpr
        simp only [ClassDiagram.rpf_step, hts', Bool.false_eq_true, if_false, hpr',
          List.filter_cons, Bool.not_false, Bool.true_and, Bool.and_false, List.map_cons]
        simp [List.append_assoc]

/-- C10: when the class-diagram scan accepts more than one file named
schema.prisma, the prisma payload read_project_files returns holds only the
content of the last accepted schema.prisma in traversal order (each read
overwrote the previous), the typescript payload is the concatenation of every
accepted .ts file contents each preceded by their path header, and the returned
file list holds the path of every accepted file in traversal order. -/
theorem c10_prisma_last (t : FSTree) (content : List String → String)
    (matcher : List String → Bool)
    (hp : 2 ≤ ((acceptedFiles allowCD matcher t).filter
        (fun rf => !strEndsWith rf.2 ".ts" && rf.2 == "schema.prisma")).length) :
    (ClassDiagram.read_project_files t content matcher).2.1
      = ((((acceptedFiles allowCD matcher t).filter
          (fun rf => !strEndsWith rf.2 ".ts" && rf.2 == "schema.prisma")).getLast?).map
          (fun rf => content (rf.1 ++ [rf.2]))).getD "" ∧
    (ClassDiagram.read_project_files t content matcher).1
      = ((acceptedFiles allowCD matcher t).filter (fun rf => strEndsWith rf.2 ".ts")).foldl
          (fun s rf => s ++ "\n\n--- " ++ renderPath (rf.1 ++ [rf.2]) ++ " ---\n\n" ++
            content (rf.1 ++ [rf.2])) "" ∧
    (ClassDiagram.read_project_files t content matcher).2.2
      = (acceptedFiles allowCD matcher t).map (fun rf => rf.1 ++ [rf.2]) := by
  rw [ClassDiagram.read_project_files, rpf_foldl_eq]
  exact ⟨rfl, rfl, by simp⟩

/-- C10 witness: a tree with a root schema.prisma and a second one under x/;
the prisma payload is the content of x/schema.prisma, the last in traversal
order. -/
theorem c10_prisma_last_witness :
    2 ≤ ((acceptedFiles allowCD (fun _ => false)
        (FSTree.fileEntry "a.ts" (.fileEntry "schema.prisma"
          (.dirEntry "x" (.fileEntry "schema.prisma" .empty) .empty)))).filter
        (fun rf => !strEndsWith rf.2 ".ts" && rf.2 == "schema.prisma")).length ∧
    (ClassDiagram.read_project_files
        (FSTree.fileEntry "a.ts" (.fileEntry "schema.prisma"
          (.dirEntry "x" (.fileEntry "schema.prisma" .empty) .empty)))
        (fun p => if p = ["x", "schema.prisma"] then "LAST" else "ROOT")
        (fun _ => false)).2.1
      = "LAST" :=
  ⟨by decide,
   ((c10_prisma_last
      (FSTree.fileEntry "a.ts" (.fileEntry "schema.prisma"
        (.dirEntry "x" (.fileEntry "schema.prisma" .empty) .empty)))
      (fun p => if p = ["x", "schema.prisma"] then "LAST" else "ROOT")
      (fun _ => false) (by decide)).1).trans (by decide)⟩

/-! ## Helper lemmas about the runs with a missing key -/

theorem generate_diagram_no_key (oracle : Option String) (ct : String → Nat)
    (ts pr : String) :
    ClassDiagram.generate_diagram ⟨none⟩ oracle ct ts pr = (("", 0, 0), []) := rfl

theorem gews_no_key (ak : Option String) (ct : String → Nat) (oracle : Option String)
    (renderOk : Bool) (name content : String) :
    CodeExplanation.generate_explanation_with_screenshot ⟨ak, none⟩ ct oracle
      renderOk name content = (("", "", "", 0, 0), []) := rfl

theorem explain_step_no_key (ak : Option String) (ct : String → Nat)
    (oracle : String → String → Option String) (renderOk : String → Bool)
    (st : List (String × String × String × String) × Nat × Nat) (fc : String × String) :
    CodeExplanation.explain_step ⟨ak, none⟩ ct oracle renderOk st fc = st := by
  rw [CodeExplanation.explain_step]
  simp [gews_no_key]

theorem explain_loop_no_key (ak : Option String) (ct : String → Nat)
    (oracle : String → String → Option String) (renderOk : String → Bool)
    (files : List (String × String)) :
    CodeExplanation.explain_files_loop ⟨ak, none⟩ ct oracle renderOk files
      = (([], 0, 0), []) := by
  rw [CodeExplanation.explain_files_loop]
  have h2 : files.flatMap (fun fc =>
      (CodeExplanation.generate_explanation_with_screenshot ⟨ak, none⟩ ct
        (oracle fc.1 fc.2) (renderOk fc.1) fc.1 fc.2).2) = [] := by
    induction files with
    | nil => rfl
    | cons fc rest ih =>
      rw [List.flatMap_cons, gews_no_key]
      simpa using ih
  have h1 : ∀ st, files.foldl
      (CodeExplanation.explain_step ⟨ak, none⟩ ct oracle renderOk) st = st := by
    intro st
    clear h2
    induction files generalizing st with
    | nil => rfl
    | cons fc rest ih =>
      rw [List.foldl_cons, explain_step_no_key]
      exact ih _
  rw [h1, h2]

theorem netCall_not_mem_fileRead {α : Type} (l : List α) (g : α → String) :
    Ev.netCall ∉ l.map (fun x => Ev.fileRead (g x)) := by
  intro h
  rcases List.mem_map.mp h with ⟨x, _, hx⟩
  exact Ev.noConfusion hx

theorem netCall_not_mem_cwd (expls : List (String × String × String × String))
    (saveOk : Bool) :
    Ev.netCall ∉ (CodeExplanation.create_word_document expls saveOk).2 := by
  rw [CodeExplanation.create_word_document]
  split <;> simp

theorem generate_class_diagram_no_key (oracle : Option String) (ct : String → Nat)
    (t : FSTree) (content : List String → String) (matcher : List String → Bool) :
    ClassDiagram.generate_class_diagram ⟨none⟩ oracle ct t content matcher
      = (("", 0, 0, 0,
          if (ClassDiagram.read_project_files t content matcher).1 = ""
              ∧ (ClassDiagram.read_project_files t content matcher).2.1 = ""
          then ([] : List (List String))
          else (ClassDiagram.read_project_files t content matcher).2.2),
         ClassDiagram.read_project_files_events t matcher) := by
  simp only [ClassDiagram.generate_class_diagram]
  split
  · rfl
  · rw [generate_diagram_no_key]
    simp [calculate_cost]

theorem gce_no_key (ak : Option String) (ct : String → Nat)
    (oracle : String → String → Option String) (renderOk : String → Bool)
    (saveOk : Bool) (t : FSTree) (content : List String → String)
    (matcher : List String → Bool) :
    CodeExplanation.generate_code_explanations ⟨ak, none⟩ ct oracle renderOk saveOk
        t content matcher
      = (([], 0, 0, 0, (CodeExplanation.create_word_document [] saveOk).1),
         (CodeExplanation.read_typescript_files t content matcher).map
             (fun fc => Ev.fileRead fc.1)
           ++ (CodeExplanation.create_word_document [] saveOk).2) := by
  simp only [CodeExplanation.generate_code_explanations, explain_loop_no_key]
  simp [calculate_cost]

/-! ## Claim C3 -/

/-- C3 counterexample: with the key absent, a class-diagram run over a project
holding one TypeScript file still reads that file — the run incurs file I/O
before the missing key is detected (the check sits inside generate_diagram,
after read_project_files), contradicting fails fast before any I/O cost. -/
theorem c3_failfast_counterexample :
    (ClassDiagram.generate_class_diagram ⟨none⟩ (some "D") (fun _ => 5)
        (.fileEntry "a.ts" .empty) (fun _ => "let x") (fun _ => false)).2
      = [Ev.fileRead "a.ts"] ∧
    (ClassDiagram.generate_class_diagram ⟨none⟩ (some "D") (fun _ => 5)
        (.fileEntry "a.ts" .empty) (fun _ => "let x") (fun _ => false)).1.1 = "" :=
  ⟨by decide, by decide⟩

/-- C3 (amended): with the required key absent no pipeline ever attempts a
network call, but only the use-case pipeline fails fast before any I/O
(initialize_llm raises before the file is read); the class-diagram pipeline
performs its whole file scan first and then returns the empty failure result,
and the code-explanation pipeline does not fail fast at all — the missing-key
exception is raised and caught per unit deep in the pipeline, every unit
yielding the empty result. -/
theorem c3_failfast_amended :
    (∀ (oracle : Option String) (ct : String → Nat) (t : FSTree)
        (content : List String → String) (matcher : List String → Bool),
      Ev.netCall ∉ (ClassDiagram.generate_class_diagram ⟨none⟩ oracle ct t content matcher).2 ∧
      (ClassDiagram.generate_class_diagram ⟨none⟩ oracle ct t content matcher).1.1 = "" ∧
      (ClassDiagram.generate_class_diagram ⟨none⟩ oracle ct t content matcher).2
        = ClassDiagram.read_project_files_events t matcher) ∧
    (∀ (ak : Option String) (ct : String → Nat)
        (oracle : String → String → Option String) (renderOk : String → Bool)
        (saveOk : Bool) (t : FSTree) (content : List String → String)
        (matcher : List String → Bool),
      Ev.netCall ∉ (CodeExplanation.generate_code_explanations ⟨ak, none⟩ ct oracle
        renderOk saveOk t content matcher).2 ∧
      (CodeExplanation.generate_code_explanations ⟨ak, none⟩ ct oracle
        renderOk saveOk t content matcher).1.1 = []) ∧
    (∀ (file_path : String) (readResult : Except String String)
        (findall : String → String → List String)
        (oracle : Except String String) (ct : String → Nat),
      UseCase.use_case_main none file_path readResult findall oracle ct
        = (.error "ANTHROPIC_API_KEY environment variable is not set", [])) := by
  refine ⟨fun oracle ct t content matcher => ?_,
    fun ak ct oracle renderOk saveOk t content matcher => ?_,
    fun fp rr fa orc ct => rfl⟩
  · rw [generate_class_diagram_no_key]
    exact ⟨netCall_not_mem_fileRead _ _, rfl, rfl⟩
  · rw [gce_no_key]
    refine ⟨fun hmem => ?_, rfl⟩
    rcases List.mem_append.mp hmem with h1 | h2
    · exact netCall_not_mem_fileRead _ _ h1
    · exact netCall_not_mem_cwd _ _ h2

/-! ## Claim C4 -/

/-- C4 counterexample: scanning a tree whose only file a.py matches no
allow-list yields the empty explanations indicator, yet the code-explanation
run still writes the Word-document artifact code_explanations.docx (the
document builder is called unconditionally, also on an empty unit list). -/
theorem c4_no_candidates_counterexample :
    (CodeExplanation.generate_code_explanations ⟨some "k", some "k"⟩ (fun _ => 3)
      (fun _ _ => some "x") (fun _ => true) true (.fileEntry "a.py" .empty)
      (fun _ => "c") (fun _ => false)).1.1 = [] ∧
    Ev.writeArtifact "code_explanations.docx"
      ∈ (CodeExplanation.generate_code_explanations ⟨some "k", some "k"⟩ (fun _ => 3)
        (fun _ _ => some "x") (fun _ => true) true (.fileEntry "a.py" .empty)
        (fun _ => "c") (fun _ => false)).2 :=
  ⟨by decide, by decide⟩

/-- C4 (amended): a scan accepting no file returns an explicit empty
indicator in both batch pipelines; the class-diagram run then stops (no
network call, no artifact, no events at all), but the code-explanation run
still calls its document builder, so the Word-document artifact is written
whenever the document save succeeds, despite the empty result. -/
theorem c4_no_candidates_amended :
    (∀ (env : ClassDiagram.CDEnv) (oracle : Option String) (ct : String → Nat)
        (t : FSTree) (content : List String → String) (matcher : List String → Bool),
      acceptedFiles allowCD matcher t = [] →
      ClassDiagram.class_diagram_main env oracle ct t content matcher
        = (("", 0, 0, 0, []), [])) ∧
    (∀ (env : CodeExplanation.CEEnv) (ct : String → Nat)
        (oracle : String → String → Option String) (renderOk : String → Bool)
        (saveOk : Bool) (t : FSTree) (content : List String → String)
        (matcher : List String → Bool),
      acceptedFiles allowCE matcher t = [] →
      CodeExplanation.generate_code_explanations env ct oracle renderOk saveOk
          t content matcher
        = (([], 0, 0, 0, (CodeExplanation.create_word_document [] saveOk).1),
           (CodeExplanation.create_word_document [] saveOk).2)) := by
  refine ⟨fun env oracle ct t content matcher h => ?_,
    fun env ct oracle renderOk saveOk t content matcher h => ?_⟩
  · have hr : ClassDiagram.read_project_files t content matcher = ("", "", []) := by
      rw [ClassDiagram.read_project_files, h]
      rfl
    have he : ClassDiagram.read_project_files_events t matcher = [] := by
      rw [ClassDiagram.read_project_files_events, h]
      rfl
    simp only [ClassDiagram.class_diagram_main, ClassDiagram.generate_class_diagram, hr, he]
    simp
  · have hf : CodeExplanation.read_typescript_files t content matcher = [] := by
      rw [CodeExplanation.read_typescript_files, h]
      rfl
    simp only [CodeExplanation.generate_code_explanations, hf]
    simp [CodeExplanation.explain_files_loop, calculate_cost]

/-- C4 witness: the amended statement applied to the one-file tree a.py, whose
scan accepts nothing under either allow-list. -/
theorem c4_no_candidates_witness :
    (acceptedFiles allowCD (fun _ => false) (.fileEntry "a.py" .empty) = [] ∧
      ClassDiagram.class_diagram_main ⟨some "k"⟩ (some "D") (fun _ => 3)
        (.fileEntry "a.py" .empty) (fun _ => "c") (fun _ => false)
        = (("", 0, 0, 0, []), [])) ∧
    (acceptedFiles allowCE (fun _ => false) (.fileEntry "a.py" .empty) = [] ∧
      CodeExplanation.generate_code_explanations ⟨some "k", some "k"⟩ (fun _ => 3)
        (fun _ _ => some "x") (fun _ => true) true (.fileEntry "a.py" .empty)
        (fun _ => "c") (fun _ => false)
        = (([], 0, 0, 0, (CodeExplanation.create_word_document [] true).1),
           (CodeExplanation.create_word_document [] true).2)) :=
  ⟨⟨by decide, c4_no_candidates_amended.1 ⟨some "k"⟩ (some "D") (fun _ => 3)
      (.fileEntry "a.py" .empty) (fun _ => "c") (fun _ => false) (by decide)⟩,
   ⟨by decide, c4_no_candidates_amended.2 ⟨some "k", some "k"⟩ (fun _ => 3)
      (fun _ _ => some "x") (fun _ => true) true (.fileEntry "a.py" .empty)
      (fun _ => "c") (fun _ => false) (by decide)⟩⟩

/-! ## Claim C5 -/

theorem generate_explanation_empty_completion (ak : Option String) (k : String)
    (ct : String → Nat) (name content : String) :
    CodeExplanation.generate_explanation ⟨ak, some k⟩ ct (some "") name content
      = (.ok ("", "", 0, 0), [Ev.netCall]) := rfl

theorem gews_empty_completion (ak : Option String) (k : String) (ct : String → Nat)
    (renderOk : Bool) (name content : String) :
    CodeExplanation.generate_explanation_with_screenshot ⟨ak, some k⟩ ct (some "")
        renderOk name content
      = (("", "", (CodeExplanation.create_code_screenshot renderOk name).1, 0, 0),
         [Ev.netCall] ++ (CodeExplanation.create_code_screenshot renderOk name).2) := rfl

theorem explain_step_empty_completion (ak : Option String) (k : String)
    (ct : String → Nat) (oracle : String → String → Option String)
    (renderOk : String → Bool)
    (st : List (String × String × String × String) × Nat × Nat)
    (f : String × String) (hf : oracle f.1 f.2 = some "") :
    CodeExplanation.explain_step ⟨ak, some k⟩ ct oracle renderOk st f = st := by
  rw [CodeExplanation.explain_step, hf, gews_empty_completion]
  simp

theorem gcd_empty_oracle_diagram (env : ClassDiagram.CDEnv) (ct : String → Nat)
    (t : FSTree) (content : List String → String) (matcher : List String → Bool) :
    (ClassDiagram.generate_class_diagram env (some "") ct t content matcher).1.1 = "" := by
  simp only [ClassDiagram.generate_class_diagram]
  split
  · rfl
  · rcases env with ⟨key⟩
    cases key
    · rfl
    · rfl

theorem writeArtifact_not_mem_fileRead {α : Type} (w : String) (l : List α)
    (g : α → String) :
    Ev.writeArtifact w ∉ l.map (fun x => Ev.fileRead (g x)) := by
  intro h
  rcases List.mem_map.mp h with ⟨x, _, hx⟩
  exact Ev.noConfusion hx

theorem writeArtifact_not_mem_gcd (w : String) (env : ClassDiagram.CDEnv)
    (oracle : Option String) (ct : String → Nat) (t : FSTree)
    (content : List String → String) (matcher : List String → Bool) :
    Ev.writeArtifact w
      ∉ (ClassDiagram.generate_class_diagram env oracle ct t content matcher).2 := by
  simp only [ClassDiagram.generate_class_diagram]
  split
  · exact writeArtifact_not_mem_fileRead w _ _
  · intro hmem
    rcases List.mem_append.mp hmem with h1 | h2
    · exact writeArtifact_not_mem_fileRead w _ _ h1
    · rcases env with ⟨key⟩
      cases key
      · simp [ClassDiagram.generate_diagram] at h2
      · cases oracle
        · simp [ClassDiagram.generate_diagram] at h2
        · simp [ClassDiagram.generate_diagram] at h2

/-- C5 counterexample: in the class-diagram pipeline an empty completion is
not an exception — the unit still contributes the input tokens of the rendered prompt as its
tokens (here 7, with a tokenizer counting 7 for any non-empty text) and hence
a non-zero cost, contradicting zero tokens and zero cost for every
empty-completion unit. -/
theorem c5_empty_completion_counterexample :
    ClassDiagram.generate_diagram ⟨some "k"⟩ (some "")
      (fun s => if s == "" then 0 else 7) "x" ""
      = (("", 7, 0), [Ev.netCall]) ∧
    calculate_cost 7 0 ≠ 0 := by
  constructor
  · decide
  · simp [calculate_cost, PRICE_PER_1M_INPUT_TOKENS, PRICE_PER_1M_OUTPUT_TOKENS]
    norm_num

/-- C5 (amended): in the code-explanation pipeline an empty completion behaves
as the claim says — the unit contributes zero tokens, is excluded from the
explanations, and the run continues (the loop state is exactly as if the unit
were absent); in the class-diagram pipeline the empty completion yields no
artifact write, but the unit still reports the token count of the prompt as input
tokens, so its cost contribution is not zero. -/
theorem c5_empty_completion_amended :
    (∀ (ak : Option String) (k : String) (ct : String → Nat)
        (oracle : String → String → Option String) (renderOk : String → Bool)
        (pre post : List (String × String)) (f : String × String),
      oracle f.1 f.2 = some "" →
      (CodeExplanation.explain_files_loop ⟨ak, some k⟩ ct oracle renderOk
        (pre ++ f :: post)).1
        = (CodeExplanation.explain_files_loop ⟨ak, some k⟩ ct oracle renderOk
          (pre ++ post)).1) ∧
    (∀ (ak : Option String) (k : String) (ct : String → Nat) (renderOk : Bool)
        (name content : String),
      (CodeExplanation.generate_explanation_with_screenshot ⟨ak, some k⟩ ct
        (some "") renderOk name content).1.2.2.2 = (0, 0)) ∧
    (∀ (k : String) (ct : String → Nat) (ts pr : String),
      (ClassDiagram.generate_diagram ⟨some k⟩ (some "") ct ts pr).1
        = ("", ct (ClassDiagram.promptRendered ts pr), ct "")) ∧
    (∀ (env : ClassDiagram.CDEnv) (ct : String → Nat) (t : FSTree)
        (content : List String → String) (matcher : List String → Bool),
      Ev.writeArtifact "combined_class_diagram.md"
        ∉ (ClassDiagram.class_diagram_main env (some "") ct t content matcher).2) := by
  refine ⟨fun ak k ct oracle renderOk pre post f hf => ?_,
    fun ak k ct renderOk name content => rfl,
    fun k ct ts pr => rfl,
    fun env ct t content matcher => ?_⟩
  · rw [CodeExplanation.explain_files_loop, CodeExplanation.explain_files_loop]
    show (pre ++ f :: post).foldl _ _ = (pre ++ post).foldl _ _
    rw [List.foldl_append, List.foldl_append, List.foldl_cons,
      explain_step_empty_completion ak k ct oracle renderOk _ f hf]
  · have h1 := gcd_empty_oracle_diagram env ct t content matcher
    simp only [ClassDiagram.class_diagram_main, h1]
    simp only [ne_eq, not_true_eq_false, if_false]
    exact writeArtifact_not_mem_gcd _ env (some "") ct t content matcher

/-- C5 witness: the splice equation applied with an oracle returning the empty
completion for f.ts — the loop over a.ts and f.ts equals the loop over a.ts
alone. -/
theorem c5_empty_completion_witness :
    (fun (_ : String) (_ : String) => some "") "f.ts" "c" = some "" ∧
    (CodeExplanation.explain_files_loop ⟨some "a", some "k"⟩ (fun _ => 3)
      (fun _ _ => some "") (fun _ => true) ([("a.ts", "x")] ++ ("f.ts", "c") :: [])).1
      = (CodeExplanation.explain_files_loop ⟨some "a", some "k"⟩ (fun _ => 3)
        (fun _ _ => some "") (fun _ => true) ([("a.ts", "x")] ++ [])).1 :=
  ⟨rfl, c5_empty_completion_amended.1 (some "a") "k" (fun _ => 3)
    (fun _ _ => some "") (fun _ => true) [("a.ts", "x")] [] ("f.ts", "c") rfl⟩

/-! ## Claim C8 -/

/-- C8 counterexample: the file-read boundary of the use-case pipeline is not
wrapped — a read failure in analyze_file propagates uncaught through main
(after initialize_llm), so the run ends in the raised error rather than a
well-defined empty value. -/
theorem c8_boundaries_counterexample :
    UseCase.use_case_main (some "k") "UserController.ts" (.error "IOError")
      (fun _ _ => []) (.ok "x") (fun _ => 0)
      = (.error "IOError", [Ev.fileRead "UserController.ts"]) := by
  decide

/-- C8 (amended): the class-diagram and code-explanation pipelines wrap their
external boundaries (an invoke exception yields the empty triple or the empty
unit, render failure yields the empty path, document failure yields None), but
the use-case pipeline does not: analyze_file propagates a read error and
generate_use_case propagates an invoke error to the caller. -/
theorem c8_boundaries_amended :
    (∀ (k : String) (ct : String → Nat) (ts pr : String),
      ClassDiagram.generate_diagram ⟨some k⟩ none ct ts pr
        = (("", 0, 0), [Ev.netCall])) ∧
    (∀ (ak : Option String) (k : String) (ct : String → Nat) (renderOk : Bool)
        (name content : String),
      CodeExplanation.generate_explanation_with_screenshot ⟨ak, some k⟩ ct none
          renderOk name content
        = (("", "", (CodeExplanation.create_code_screenshot renderOk name).1, 0, 0),
           [Ev.netCall] ++ (CodeExplanation.create_code_screenshot renderOk name).2)) ∧
    (∀ name : String, CodeExplanation.create_code_screenshot false name = ("", [])) ∧
    (∀ expls : List (String × String × String × String),
      CodeExplanation.create_word_document expls false = (none, [])) ∧
    (∀ (e file_path : String) (findall : String → String → List String),
      UseCase.analyze_file (.error e) file_path findall = .error e) ∧
    (∀ (e : String) (ct : String → Nat) (analysis : String),
      UseCase.generate_use_case (.error e) ct analysis = (.error e, [Ev.netCall])) :=
  ⟨fun _ _ _ _ => rfl, fun _ _ _ _ _ _ => rfl, fun _ => rfl, fun _ => rfl,
    fun _ _ _ => rfl, fun _ _ _ => rfl⟩
